import Mathlib

/-!
Shallow embedding of the blokus geometry core (`blokus/point.py` and
`blokus/shape.py`).

Python `set` / `frozenset` values are modelled as `Finset`; Python `int` as
`Int`; optional keyword arguments as `Option Int`.  Fallible operations
return `Option`, with `none` modelling a raised exception: `Point.rotate`
raises `ValueError` for degrees not a multiple of 90, and — an
unconditional defect of this snapshot — `Shape.sides`, `Shape.corners` and
`Shape.can_connect` raise `TypeError` on every call (the unbound
`set.union` descriptor rejects the `frozenset` first argument produced by
`Point.sides`/`Point.corners`), while `Shape.arrangements` raises
`TypeError` whenever it must hash a surviving `Shape`, whose `points` field
is a mutable Python `set`.  Where the spec prescribes a value the program
never produces, a second, `...Spec`-named definition following the spec's
words is given for comparison.  Python's `%` on negative operands agrees
with `Int.emod` for a positive modulus, so `degrees % 360` translates
literally.
-/

/-- `Point` from `blokus/point.py`: an immutable pair of integer
coordinates. -/
structure Point where
  x : Int
  y : Int
deriving DecidableEq, Repr

namespace Point

/-- `Point.corners`: the four diagonal neighbours, in source order. -/
def corners (self : Point) : Finset Point :=
  {⟨self.x + 1, self.y + 1⟩, ⟨self.x - 1, self.y + 1⟩,
   ⟨self.x - 1, self.y - 1⟩, ⟨self.x + 1, self.y - 1⟩}

/-- `Point.sides`: the four orthogonal neighbours, in source order. -/
def sides (self : Point) : Finset Point :=
  {⟨self.x + 1, self.y⟩, ⟨self.x, self.y + 1⟩,
   ⟨self.x - 1, self.y⟩, ⟨self.x, self.y - 1⟩}

/-- `Point.is_corner`: membership of `other` in `self.corners()`. -/
def is_corner (self other : Point) : Bool :=
  other ∈ self.corners

/-- `Point.is_side`: membership of `other` in `self.sides()`. -/
def is_side (self other : Point) : Bool :=
  other ∈ self.sides

/-- `Point.reflect`.  The source computes `x = x or self.x`, so Python
truthiness makes both `None` and `0` fall back to the point's own
coordinate; then `dx = x - self.x` and the result coordinate is `x + dx`. -/
def reflect (self : Point) (x? y? : Option Int) : Point :=
  let x := match x? with
    | none => self.x
    | some v => if v = 0 then self.x else v
  let y := match y? with
    | none => self.y
    | some v => if v = 0 then self.y else v
  let dx := x - self.x
  let dy := y - self.y
  ⟨x + dx, y + dy⟩

/-- One clockwise quarter turn about `around`: the body of `Point.rotate`
computes `dx, dy = self.x - around.x, self.y - around.y` and returns
`(around.x + dy, around.y - dx)`. -/
def rot90 (self around : Point) : Point :=
  ⟨around.x + (self.y - around.y), around.y - (self.x - around.x)⟩

/-- `n` successive quarter turns about `around`; `Point.rotate` recurses 90
degrees at a time, which is this iteration. -/
def rotateN (self : Point) (around : Point) : Nat → Point
  | 0 => self
  | n + 1 => (self.rot90 around).rotateN around n

/-- The guard of `Point.rotate`: `degrees % 360` must be one of
0, 90, 180, 270, otherwise the source raises `ValueError`. -/
def validDegrees (degrees : Int) : Prop :=
  degrees % 360 = 0 ∨ degrees % 360 = 90 ∨
    degrees % 360 = 180 ∨ degrees % 360 = 270

instance : DecidablePred validDegrees := fun _ => by
  unfold validDegrees; infer_instance

/-- `Point.rotate`: reduce `degrees` modulo 360, reject anything outside
{0, 90, 180, 270} (`none` models the raised `ValueError`), and otherwise
apply the corresponding number of quarter turns. -/
def rotate (self : Point) (around : Point) (degrees : Int) : Option Point :=
  if validDegrees degrees
  then some (self.rotateN around ((degrees % 360) / 90).toNat)
  else none

end Point

/-- `Shape` from `blokus/shape.py`: a distinguished origin plus a set of
points. -/
structure Shape where
  origin : Point
  points : Finset Point

/-- Structural equality on `Shape`, component-wise (Python `NamedTuple`
equality).  Stated via `decidable_of_iff` so that concrete instances reduce
by evaluation. -/
instance : DecidableEq Shape := fun a b =>
  decidable_of_iff (a.origin = b.origin ∧ a.points = b.points)
    (by cases a; cases b; simp)

namespace Shape

/-- The `set.union(*(...))` idiom of `Shape.sides` and `Shape.corners`.
CPython evaluates the unbound descriptor call `set.union(args...)` by first
checking that the first argument is a `set`; `Point.sides` and
`Point.corners` return `frozenset`s, which are not `set` instances, and an
empty point set supplies no first argument at all, so every such call
raises `TypeError` before any union is formed.  `none` models the raise. -/
def setUnionOnFrozensets (args : Multiset (Finset Point)) :
    Option (Finset Point) :=
  none

/-- `Shape.sides` as the program executes it:
`set.union(*(p.sides() for p in self.points))` raises `TypeError` on every
call (see `setUnionOnFrozensets`), so the subtraction of `self.points` is
never reached and no value is ever returned. -/
def sides (self : Shape) : Option (Finset Point) :=
  match setUnionOnFrozensets (self.points.val.map Point.sides) with
  | none => none
  | some all_sides => some (all_sides \ self.points)

/-- `Shape.corners` as the program executes it: the `set.union` call over
the member points' corner frozensets raises `TypeError` first, so the
subtractions of `sides()` and `points` are never reached. -/
def corners (self : Shape) : Option (Finset Point) :=
  match setUnionOnFrozensets (self.points.val.map Point.corners) with
  | none => none
  | some all_corners =>
    match self.sides with
    | none => none
    | some s => some ((all_corners \ s) \ self.points)

/-- The sides computation the spec prescribes (and the repository's own
tests expect): the union of every member point's sides, minus the shape's
own points.  The program's `sides()` raises before producing this value. -/
def sidesSpec (self : Shape) : Finset Point :=
  (self.points.biUnion Point.sides) \ self.points

/-- The corners computation the spec prescribes: the union of every member
point's corners, minus `sidesSpec`, minus the shape's own points — in that
order. -/
def cornersSpec (self : Shape) : Finset Point :=
  ((self.points.biUnion Point.corners) \ self.sidesSpec) \ self.points

/-- `Shape.size`: the number of points. -/
def size (self : Shape) : Nat :=
  self.points.card

/-- `Shape.can_connect` as the program executes it: its first statement
evaluates `self.corners()`, which raises `TypeError` on every call, so no
boolean is ever returned. -/
def can_connect (self other : Shape) : Option Bool :=
  match self.corners with
  | none => none
  | some c =>
    if Disjoint c other.points then some false
    else
      match self.sides with
      | none => none
      | some s => some (decide (Disjoint s other.points))

/-- The connection rule the spec prescribes: if none of this shape's
corners meet the other shape's points, return `false` right away; otherwise
return whether this shape's sides avoid the other shape's points. -/
def can_connectSpec (self other : Shape) : Bool :=
  if Disjoint self.cornersSpec other.points then false
  else Disjoint self.sidesSpec other.points

/-- `Shape.reflect`: reflect the origin and every point. -/
def reflect (self : Shape) (x? y? : Option Int) : Shape :=
  ⟨self.origin.reflect x? y?, self.points.image fun p => p.reflect x? y?⟩

/-- `Shape.rotate` at a quarter-turn count that is already known valid:
rotate the origin and every point by `k` quarter turns about `around`.
`Shape.rotate` below reduces to this once the degree guard passes. -/
def rotateCore (self : Shape) (around : Point) (k : Nat) : Shape :=
  ⟨self.origin.rotateN around k, self.points.image fun p => p.rotateN around k⟩

/-- `Shape.rotate`: rotate the origin and every point; the degree guard of
`Point.rotate` fails on all points at once (same `degrees`), so the whole
shape rotation is `none` exactly when the degrees are invalid. -/
def rotate (self : Shape) (around : Point) (degrees : Int) : Option Shape :=
  if Point.validDegrees degrees
  then some (self.rotateCore around ((degrees % 360) / 90).toNat)
  else none

/-- Default for an omitted `lower` bound in `Shape.is_within`:
`min(min(p.x, p.y) for p in self.points)`.  The `untop' 0` branch is only
reachable for the empty point set, on which the Python raises. -/
def lowerDefault (self : Shape) : Int :=
  ((self.points.image fun p => min p.x p.y).min).untop' 0

/-- Default for an omitted `upper` bound in `Shape.is_within`:
`max(max(p.x, p.y) for p in self.points)`. -/
def upperDefault (self : Shape) : Int :=
  ((self.points.image fun p => max p.x p.y).max).unbot' 0

/-- `Shape.is_within`: every point's x and y must lie in `[lower, upper]`,
with omitted bounds defaulted from the shape's own points. -/
def is_within (self : Shape) (lower? upper? : Option Int) : Bool :=
  let lower := lower?.getD self.lowerDefault
  let upper := upper?.getD self.upperDefault
  decide (∀ p ∈ self.points,
    (lower ≤ p.x ∧ p.x ≤ upper) ∧ (lower ≤ p.y ∧ p.y ≤ upper))

/-- `Shape.arrangements` as the program executes it: the four rotations
about the shape's own origin, plus the four rotations of the reflection
across the origin's x value about the reflected origin (the source calls
`rotate` with degrees 0/90/180/270, all valid, so each call is the
corresponding `rotateCore` at quarter-turn counts 0–3), then the bounds
filter.  The final `frozenset(valid)` must hash each surviving `Shape`,
whose `points` field is a mutable Python `set` (built by set literals and
set comprehensions), so the first survivor raises
`TypeError: unhashable type: 'set'`, modelled as `none`; only when the
bounds exclude all eight does the generator yield nothing and the empty
frozenset is returned. -/
def arrangements (self : Shape) (lower? upper? : Option Int) :
    Option (Finset Shape) :=
  let transformations :=
    [self.rotateCore self.origin 0,
     self.rotateCore self.origin 1,
     self.rotateCore self.origin 2,
     self.rotateCore self.origin 3]
  let reflection := self.reflect (some self.origin.x) none
  let transformations := transformations ++
    [reflection.rotateCore reflection.origin 0,
     reflection.rotateCore reflection.origin 1,
     reflection.rotateCore reflection.origin 2,
     reflection.rotateCore reflection.origin 3]
  let valid := transformations.filter fun t => t.is_within lower? upper?
  if valid.isEmpty then some valid.toFinset else none

/-- `Shape.I1`: the single-point piece. -/
def I1 (origin : Point) : Shape :=
  ⟨origin, {origin}⟩

/-- `Shape.I2`. -/
def I2 (origin : Point) : Shape :=
  ⟨origin, {origin, ⟨origin.x + 1, origin.y⟩}⟩

/-- `Shape.I3`. -/
def I3 (origin : Point) : Shape :=
  ⟨origin, {origin, ⟨origin.x + 1, origin.y⟩, ⟨origin.x + 2, origin.y⟩}⟩

/-- `Shape.V3`. -/
def V3 (origin : Point) : Shape :=
  ⟨origin, {origin, ⟨origin.x, origin.y + 1⟩, ⟨origin.x + 1, origin.y⟩}⟩

/-- `Shape.I4`. -/
def I4 (origin : Point) : Shape :=
  ⟨origin, {origin, ⟨origin.x + 1, origin.y⟩, ⟨origin.x + 2, origin.y⟩,
    ⟨origin.x + 3, origin.y⟩}⟩

/-- `Shape.L4`. -/
def L4 (origin : Point) : Shape :=
  ⟨origin, {origin, ⟨origin.x, origin.y + 1⟩, ⟨origin.x + 1, origin.y⟩,
    ⟨origin.x + 2, origin.y⟩}⟩

/-- `Shape.O4`. -/
def O4 (origin : Point) : Shape :=
  ⟨origin, {origin, ⟨origin.x, origin.y + 1⟩, ⟨origin.x + 1, origin.y⟩,
    ⟨origin.x + 1, origin.y + 1⟩}⟩

/-- `Shape.T4`. -/
def T4 (origin : Point) : Shape :=
  ⟨origin, {origin, ⟨origin.x - 1, origin.y⟩, ⟨origin.x + 1, origin.y⟩,
    ⟨origin.x, origin.y + 1⟩}⟩

/-- `Shape.Z4`. -/
def Z4 (origin : Point) : Shape :=
  ⟨origin, {origin, ⟨origin.x + 1, origin.y⟩, ⟨origin.x + 1, origin.y + 1⟩,
    ⟨origin.x + 2, origin.y + 1⟩}⟩

/-- `Shape.F`. -/
def F (origin : Point) : Shape :=
  ⟨origin, {origin, ⟨origin.x + 1, origin.y⟩, ⟨origin.x + 1, origin.y + 1⟩,
    ⟨origin.x + 2, origin.y + 1⟩, ⟨origin.x + 1, origin.y + 2⟩}⟩

/-- `Shape.I5`. -/
def I5 (origin : Point) : Shape :=
  ⟨origin, {origin, ⟨origin.x + 1, origin.y⟩, ⟨origin.x + 2, origin.y⟩,
    ⟨origin.x + 3, origin.y⟩, ⟨origin.x + 4, origin.y⟩}⟩

/-- `Shape.L5`. -/
def L5 (origin : Point) : Shape :=
  ⟨origin, {origin, ⟨origin.x, origin.y + 1⟩, ⟨origin.x + 1, origin.y⟩,
    ⟨origin.x + 2, origin.y⟩, ⟨origin.x + 3, origin.y⟩}⟩

/-- `Shape.N`. -/
def N (origin : Point) : Shape :=
  ⟨origin, {origin, ⟨origin.x + 1, origin.y⟩, ⟨origin.x + 2, origin.y⟩,
    ⟨origin.x + 2, origin.y + 1⟩, ⟨origin.x + 3, origin.y + 1⟩}⟩

/-- `Shape.P`. -/
def P (origin : Point) : Shape :=
  ⟨origin, {origin, ⟨origin.x + 1, origin.y⟩, ⟨origin.x + 1, origin.y + 1⟩,
    ⟨origin.x + 2, origin.y⟩, ⟨origin.x + 2, origin.y + 1⟩}⟩

/-- `Shape.U`. -/
def U (origin : Point) : Shape :=
  ⟨origin, {origin, ⟨origin.x - 1, origin.y⟩, ⟨origin.x - 1, origin.y + 1⟩,
    ⟨origin.x + 1, origin.y⟩, ⟨origin.x + 1, origin.y + 1⟩}⟩

/-- `Shape.V5`. -/
def V5 (origin : Point) : Shape :=
  ⟨origin, {origin, ⟨origin.x, origin.y + 1⟩, ⟨origin.x, origin.y + 2⟩,
    ⟨origin.x + 1, origin.y⟩, ⟨origin.x + 2, origin.y⟩}⟩

/-- `Shape.W`. -/
def W (origin : Point) : Shape :=
  ⟨origin, {origin, ⟨origin.x - 1, origin.y - 1⟩, ⟨origin.x, origin.y - 1⟩,
    ⟨origin.x + 1, origin.y⟩, ⟨origin.x + 1, origin.y + 1⟩}⟩

/-- `Shape.X`. -/
def X (origin : Point) : Shape :=
  ⟨origin, {origin, ⟨origin.x - 1, origin.y⟩, ⟨origin.x + 1, origin.y⟩,
    ⟨origin.x, origin.y - 1⟩, ⟨origin.x, origin.y + 1⟩}⟩

/-- `Shape.Y`. -/
def Y (origin : Point) : Shape :=
  ⟨origin, {origin, ⟨origin.x - 1, origin.y⟩, ⟨origin.x, origin.y + 1⟩,
    ⟨origin.x + 1, origin.y⟩, ⟨origin.x + 2, origin.y⟩}⟩

/-- `Shape.Z5`. -/
def Z5 (origin : Point) : Shape :=
  ⟨origin, {origin, ⟨origin.x - 1, origin.y - 1⟩, ⟨origin.x, origin.y - 1⟩,
    ⟨origin.x, origin.y + 1⟩, ⟨origin.x + 1, origin.y + 1⟩}⟩

end Shape

/-- Every named factory classmethod of `Shape`, in source order.  The source
file defines exactly these twenty. -/
def shapeFactories : List (Point → Shape) :=
  [Shape.I1, Shape.I2, Shape.I3, Shape.V3, Shape.I4, Shape.L4, Shape.O4,
   Shape.T4, Shape.Z4, Shape.F, Shape.I5, Shape.L5, Shape.N, Shape.P,
   Shape.U, Shape.V5, Shape.W, Shape.X, Shape.Y, Shape.Z5]

/-! ### Point-level lemmas -/

/-- `Point.reflect` at fixed axis arguments is injective. -/
lemma Point.reflect_injective (x? y? : Option Int) :
    Function.Injective fun p : Point => p.reflect x? y? := by
  intro p q h
  obtain ⟨px, py⟩ := p
  obtain ⟨qx, qy⟩ := q
  cases x? <;> cases y? <;>
  · simp only [Point.reflect, Point.mk.injEq] at h
    simp only [Point.mk.injEq]
    first
    | (split_ifs at h <;> omega)
    | omega

/-- A quarter turn about a fixed pivot is injective. -/
lemma Point.rot90_injective (around : Point) :
    Function.Injective fun p : Point => p.rot90 around := by
  intro p q h
  obtain ⟨px, py⟩ := p
  obtain ⟨qx, qy⟩ := q
  simp only [Point.rot90, Point.mk.injEq] at h
  simp only [Point.mk.injEq]
  omega

/-- Iterated quarter turns about a fixed pivot are injective. -/
lemma Point.rotateN_injective (around : Point) (n : Nat) :
    Function.Injective fun p : Point => p.rotateN around n := by
  induction n with
  | zero => intro p q h; exact h
  | succ n ih =>
    intro p q h
    exact Point.rot90_injective around (ih h)

/-- Four quarter turns return to the start. -/
lemma Point.rotateN_four (p around : Point) : p.rotateN around 4 = p := by
  obtain ⟨px, py⟩ := p
  obtain ⟨ax, ay⟩ := around
  simp only [Point.rotateN, Point.rot90, Point.mk.injEq]
  omega

/-- The pivot is a fixed point of a quarter turn. -/
lemma Point.rot90_self (a : Point) : a.rot90 a = a := by
  obtain ⟨ax, ay⟩ := a
  simp only [Point.rot90, Point.mk.injEq]
  omega

/-- The pivot is a fixed point of any number of quarter turns. -/
lemma Point.rotateN_self (a : Point) (n : Nat) : a.rotateN a n = a := by
  induction n with
  | zero => rfl
  | succ n ih => simp only [Point.rotateN, Point.rot90_self]; exact ih

/-- Reflecting a point across its own x coordinate is the identity (in both
branches of the truthiness fallback). -/
lemma Point.reflect_own_x (p : Point) : p.reflect (some p.x) none = p := by
  obtain ⟨px, py⟩ := p
  simp only [Point.reflect]
  split_ifs <;> simp only [Point.mk.injEq] <;> omega

/-! ### Shape-level lemmas -/

/-- Unfolding of the spec's connection rule into its two disjointness
tests. -/
lemma Shape.can_connectSpec_iff (A B : Shape) :
    A.can_connectSpec B = true ↔
      ¬ Disjoint A.cornersSpec B.points ∧ Disjoint A.sidesSpec B.points := by
  unfold Shape.can_connectSpec
  split_ifs with hd
  · simp [hd]
  · simp [hd]

/-! ### Claims -/

/-- C1: the claim says `P.reflect(x=v)` mirrors the x coordinate about every
supplied integer `v`, via the formula `v + (v - cx)`.  The code diverges at
`v = 0`: `x = x or self.x` treats the supplied `0` as absent, so
`Point(4, 5).reflect(x=0)` returns `Point(4, 5)` while the claimed formula
gives `Point(-4, 5)`. -/
theorem reflect_supplied_zero_divergence :
    Point.reflect ⟨4, 5⟩ (some 0) none = ⟨4, 5⟩ ∧
      (⟨0 + (0 - 4), 5⟩ : Point) ≠ ⟨4, 5⟩ := by
  decide

/-- C3: the claim says `A.can_connect(B) == B.can_connect(A)` with no
disjointness precondition.  The program never produces a boolean on either
side: `can_connect` raises `TypeError` on every call, because its first
statement `self.corners()` calls the unbound `set.union` with a frozenset
argument.  Moreover, even the connection rule the spec prescribes is not
symmetric for *every* pair: on the overlapping pair `A = {(0,0), (1,1)}`
(origin `(0,0)`) and `B = I1((1,1))` the two directions disagree, because
each shape's corner set excludes its own member points; symmetry would hold
only for disjoint point sets. -/
theorem can_connect_raises_both_directions :
    (Shape.V3 ⟨0, 0⟩).can_connect (Shape.V3 ⟨2, 1⟩) = none ∧
    (Shape.V3 ⟨2, 1⟩).can_connect (Shape.V3 ⟨0, 0⟩) = none ∧
    ((Shape.I1 ⟨1, 1⟩).can_connectSpec ⟨⟨0, 0⟩, {⟨0, 0⟩, ⟨1, 1⟩}⟩ = true ∧
      (⟨⟨0, 0⟩, {⟨0, 0⟩, ⟨1, 1⟩}⟩ : Shape).can_connectSpec (Shape.I1 ⟨1, 1⟩)
        = false) := by
  decide

/-- C4: the claim says `can_connect(self, other)` returns true iff a corner
is shared and no side is shared, with concrete V3 cases.  The program
returns nothing at all — every call raises `TypeError` inside
`self.corners()` — while the claimed rule is exactly the spec's algorithm,
modelled as `can_connectSpec`, which on the claim's V3 placements yields
true for the diagonal-only touch and false for the edge touch even though a
corner is also shared. -/
theorem can_connect_never_returns :
    (∀ A B : Shape, A.can_connect B = none) ∧
    (∀ A B : Shape, A.can_connectSpec B = true ↔
      ¬ Disjoint A.cornersSpec B.points ∧ Disjoint A.sidesSpec B.points) ∧
    (Shape.V3 ⟨0, 0⟩).can_connectSpec (Shape.V3 ⟨2, 1⟩) = true ∧
    ((Shape.V3 ⟨0, 0⟩).can_connectSpec (Shape.V3 ⟨1, 1⟩) = false ∧
      ¬ Disjoint (Shape.V3 ⟨0, 0⟩).cornersSpec (Shape.V3 ⟨1, 1⟩).points) := by
  refine ⟨fun A B => rfl, Shape.can_connectSpec_iff, by decide, by decide,
    by decide⟩

/-- C2 counterexample: the source defines twenty named factory
classmethods, not twenty-one (the `T5` pentomino is absent). -/
theorem shape_factories_not_21 : shapeFactories.length ≠ 21 := by
  decide

set_option maxHeartbeats 1600000 in
/-- C2 (amended): there are exactly 20 named `Shape` factory functions with
piece sizes spanning 1 through 5; each takes an origin and returns the
piece's canonical fixed offset layout anchored there (its point set is the
translate of the layout at `(0, 0)`), with the origin a member and the size
independent of the origin. -/
theorem shape_factories_layout :
    shapeFactories.length = 20 ∧
    (shapeFactories.map fun f => (f ⟨0, 0⟩).size)
      = [1, 2, 3, 3, 4, 4, 4, 4, 4, 5, 5, 5, 5, 5, 5, 5, 5, 5, 5, 5] ∧
    ∀ f ∈ shapeFactories, ∀ o : Point,
      (f o).origin = o ∧ o ∈ (f o).points ∧
      (f o).points
        = (f ⟨0, 0⟩).points.image (fun p => ⟨o.x + p.x, o.y + p.y⟩) ∧
      (f o).size = (f ⟨0, 0⟩).size := by
  refine ⟨by decide, by decide, ?_⟩
  intro f hf o
  obtain ⟨ox, oy⟩ := o
  have hinj : Function.Injective
      fun p : Point => (⟨ox + p.x, oy + p.y⟩ : Point) := by
    intro p q h
    obtain ⟨px, py⟩ := p
    obtain ⟨qx, qy⟩ := q
    simp only [Point.mk.injEq] at h
    simp only [Point.mk.injEq]
    omega
  suffices h : (f ⟨ox, oy⟩).origin = ⟨ox, oy⟩ ∧
      (⟨ox, oy⟩ : Point) ∈ (f ⟨ox, oy⟩).points ∧
      (f ⟨ox, oy⟩).points
        = (f ⟨0, 0⟩).points.image (fun p => ⟨ox + p.x, oy + p.y⟩) by
    refine ⟨h.1, h.2.1, h.2.2, ?_⟩
    rw [Shape.size, Shape.size, h.2.2,
      Finset.card_image_of_injective _ hinj]
  simp only [shapeFactories, List.mem_cons, List.not_mem_nil, or_false] at hf
  rcases hf with rfl | rfl | rfl | rfl | rfl | rfl | rfl | rfl | rfl | rfl |
    rfl | rfl | rfl | rfl | rfl | rfl | rfl | rfl | rfl | rfl <;>
  · refine ⟨rfl, ?_, ?_⟩
    · first
      | exact Finset.mem_insert_self _ _
      | exact Finset.mem_singleton_self _
    · apply Finset.ext
      intro p
      obtain ⟨px, py⟩ := p
      simp only [Shape.I1, Shape.I2, Shape.I3, Shape.V3, Shape.I4, Shape.L4,
        Shape.O4, Shape.T4, Shape.Z4, Shape.F, Shape.I5, Shape.L5, Shape.N,
        Shape.P, Shape.U, Shape.V5, Shape.W, Shape.X, Shape.Y, Shape.Z5,
        Finset.image_insert, Finset.image_singleton, Finset.mem_insert,
        Finset.mem_singleton, Point.mk.injEq]
      omega

/-- C2 witness: the amended factory theorem applied to `Shape.V3` at origin
`(2, 3)`. -/
theorem shape_factories_layout_witness :
    (Shape.V3 ⟨2, 3⟩).origin = ⟨2, 3⟩ ∧
      (⟨2, 3⟩ : Point) ∈ (Shape.V3 ⟨2, 3⟩).points ∧
      (Shape.V3 ⟨2, 3⟩).points
        = (Shape.V3 ⟨0, 0⟩).points.image (fun p => ⟨2 + p.x, 3 + p.y⟩) ∧
      (Shape.V3 ⟨2, 3⟩).size = (Shape.V3 ⟨0, 0⟩).size :=
  shape_factories_layout.2.2 Shape.V3 (by simp [shapeFactories]) ⟨2, 3⟩

/-- A 90 degree `Point.rotate` is one quarter turn. -/
lemma Point.rotate_quarter (q a : Point) :
    Point.rotate q a 90 = some (q.rot90 a) := by
  norm_num [Point.rotate, Point.validDegrees, Point.rotateN]

/-- Rotating a shape about its own origin keeps the origin. -/
lemma Shape.rotateCore_origin (S : Shape) (k : Nat) :
    (S.rotateCore S.origin k).origin = S.origin :=
  Point.rotateN_self S.origin k

/-- C5: the claim says `arrangements()` returns the dihedral orbit — 1
distinct result for the symmetric `I1` and `X` pieces, 8 for the asymmetric
`F` and `N` pieces.  The program returns nothing on all these inputs: with
no bounds every transformation passes `is_within`, and `frozenset(valid)`
then hashes a `Shape` whose `points` field is a mutable `set`, raising
`TypeError: unhashable type: 'set'` before any arrangement is produced. -/
theorem arrangements_raise_unhashable :
    (Shape.F ⟨0, 0⟩).arrangements none none = none ∧
    (Shape.I1 ⟨5, 5⟩).arrangements none none = none ∧
    (Shape.X ⟨5, 5⟩).arrangements none none = none ∧
    (Shape.F ⟨5, 5⟩).arrangements none none = none ∧
    (Shape.N ⟨5, 5⟩).arrangements none none = none := by
  decide

/-- C6: the claim states what `S.corners()` and `S.sides()` equal, but
both raise `TypeError` on every call — the unbound `set.union` is applied
to the frozensets from `Point.corners`/`Point.sides` — including on the `W`
piece exercised by the repository's own tests.  The spec's formulas,
modelled separately as `sidesSpec`/`cornersSpec`, produce exactly the side
and corner sets those tests expect, and exhibit the claimed precedence: the
cell `(1, 1)` of `V3` at the origin is diagonal to `(0, 0)` but orthogonal
to `(0, 1)` and `(1, 0)`, so it is a side and not a corner. -/
theorem corners_sides_raise_typeerror :
    (Shape.W ⟨5, 5⟩).sides = none ∧
    (Shape.W ⟨5, 5⟩).corners = none ∧
    (Shape.W ⟨5, 5⟩).sidesSpec
      = {⟨3, 4⟩, ⟨4, 3⟩, ⟨4, 5⟩, ⟨5, 3⟩, ⟨5, 6⟩, ⟨6, 4⟩, ⟨6, 7⟩, ⟨7, 5⟩,
         ⟨7, 6⟩} ∧
    (Shape.W ⟨5, 5⟩).cornersSpec
      = {⟨3, 3⟩, ⟨3, 5⟩, ⟨4, 6⟩, ⟨5, 7⟩, ⟨6, 3⟩, ⟨7, 4⟩, ⟨7, 7⟩} ∧
    ((⟨1, 1⟩ : Point) ∈ (Shape.V3 ⟨0, 0⟩).sidesSpec ∧
      (⟨1, 1⟩ : Point) ∉ (Shape.V3 ⟨0, 0⟩).cornersSpec) := by
  decide

/-- C7: if a shape contains its origin, then any `reflect` and any
successful `rotate` produce a shape that again contains its origin and has
the same `size()`. -/
theorem transforms_preserve_size_and_origin (S : Shape) (x? y? : Option Int)
    (around : Point) (degrees : Int) (hmem : S.origin ∈ S.points) :
    ((S.reflect x? y?).origin ∈ (S.reflect x? y?).points ∧
      (S.reflect x? y?).size = S.size) ∧
    ∀ T : Shape, S.rotate around degrees = some T →
      T.origin ∈ T.points ∧ T.size = S.size := by
  constructor
  · exact ⟨Finset.mem_image_of_mem _ hmem,
      Finset.card_image_of_injective _ (Point.reflect_injective x? y?)⟩
  · intro T hT
    unfold Shape.rotate at hT
    split_ifs at hT
    injection hT with hT
    subst hT
    exact ⟨Finset.mem_image_of_mem _ hmem,
      Finset.card_image_of_injective _ (Point.rotateN_injective around _)⟩

/-- C7 witness: the transform invariants applied to the `V3` piece at
`(1, 2)`, reflected across `x = 3` and rotated 90 degrees about the
origin of the plane. -/
theorem transforms_preserve_size_and_origin_witness :
    (((Shape.V3 ⟨1, 2⟩).reflect (some 3) none).origin
        ∈ ((Shape.V3 ⟨1, 2⟩).reflect (some 3) none).points ∧
      ((Shape.V3 ⟨1, 2⟩).reflect (some 3) none).size
        = (Shape.V3 ⟨1, 2⟩).size) ∧
    (((Shape.V3 ⟨1, 2⟩).rotateCore ⟨0, 0⟩ 1).origin
        ∈ ((Shape.V3 ⟨1, 2⟩).rotateCore ⟨0, 0⟩ 1).points ∧
      ((Shape.V3 ⟨1, 2⟩).rotateCore ⟨0, 0⟩ 1).size
        = (Shape.V3 ⟨1, 2⟩).size) := by
  have h := transforms_preserve_size_and_origin (Shape.V3 ⟨1, 2⟩) (some 3)
    none ⟨0, 0⟩ 90 (by decide)
  exact ⟨h.1, h.2 _ (by decide)⟩

/-- C8: the claim says `Point.rotate` raises exactly when `degrees % 360`
is not one of 0, 90, 180, 270 — which the code satisfies — and that no
other operation in the component raises.  The latter is false:
`Shape.sides`, `Shape.corners`, `Shape.can_connect` and
`Shape.arrangements` raise `TypeError` on every documented-domain call,
e.g. on the single-point piece the repository's own `test_simple_sides`
exercises. -/
theorem rotate_not_the_only_raise :
    (∀ (p around : Point) (degrees : Int),
      Point.rotate p around degrees = none ↔
        degrees % 360 ∉ ({0, 90, 180, 270} : Finset Int)) ∧
    (Shape.I1 ⟨4, 4⟩).sides = none ∧
    (Shape.I1 ⟨4, 4⟩).corners = none ∧
    (Shape.I1 ⟨4, 4⟩).can_connect (Shape.I1 ⟨6, 6⟩) = none ∧
    (Shape.I1 ⟨4, 4⟩).arrangements none none = none := by
  refine ⟨?_, rfl, rfl, rfl, by decide⟩
  intro p around degrees
  unfold Point.rotate
  split_ifs with h <;>
    simp only [Point.validDegrees, Finset.mem_insert,
      Finset.mem_singleton] at h ⊢ <;>
    tauto

/-- C9: rotating by 0 or by 360 degrees is the identity, four quarter turns
compose to the identity, and rotating a point about itself returns that
point for every valid degree count. -/
theorem rotate_identities (p around : Point) :
    Point.rotate p around 0 = some p ∧
    Point.rotate p around 360 = some p ∧
    ((Point.rotate p around 90).bind fun q =>
      (Point.rotate q around 90).bind fun r =>
        (Point.rotate r around 90).bind fun s =>
          Point.rotate s around 90) = some p ∧
    ∀ degrees : Int, Point.validDegrees degrees →
      Point.rotate p p degrees = some p := by
  refine ⟨?_, ?_, ?_, ?_⟩
  · norm_num [Point.rotate, Point.validDegrees, Point.rotateN]
  · norm_num [Point.rotate, Point.validDegrees, Point.rotateN]
  · simp only [Point.rotate_quarter, Option.some_bind]
    exact congrArg some (Point.rotateN_four p around)
  · intro degrees hd
    unfold Point.rotate
    rw [if_pos hd]
    exact congrArg some (Point.rotateN_self p _)

/-- C9 witness: the self-rotation identity instantiated at 180 degrees. -/
theorem rotate_identities_witness :
    Point.rotate ⟨8, 10⟩ ⟨8, 10⟩ 180 = some ⟨8, 10⟩ :=
  (rotate_identities ⟨8, 10⟩ ⟨7, 7⟩).2.2.2 180 (by decide)

/-- C10: the claim says every shape in `S.arrangements(lower, upper)` has
origin `S.origin`.  No shape is ever in the result: whenever a
transformation survives the bounds filter, `frozenset(valid)` raises
`TypeError` hashing it, and when none survives the result is the empty
frozenset.  The eight generating transforms themselves do fix the origin
field — the rotations pivot on the shape's own origin, and the reflection
across the origin's own x coordinate fixes the origin in both branches of
the truthiness fallback — but `arrangements` never returns them. -/
theorem arrangements_never_yield_shapes :
    (Shape.V3 ⟨1, 2⟩).arrangements none none = none ∧
    (Shape.V3 ⟨1, 2⟩).arrangements (some 0) (some (-1))
      = some (∅ : Finset Shape) ∧
    ∀ (S : Shape) (k : Nat),
      (S.rotateCore S.origin k).origin = S.origin ∧
      ((S.reflect (some S.origin.x) none).rotateCore
          (S.reflect (some S.origin.x) none).origin k).origin = S.origin := by
  refine ⟨by decide, by decide, ?_⟩
  intro S k
  exact ⟨Shape.rotateCore_origin S k,
    (Shape.rotateCore_origin _ k).trans (Point.reflect_own_x S.origin)⟩
